import Mathlib

/-!
# Verification of the SyntheticDocuments dataset pipeline

A shallow embedding, in Lean 4, of the parts of `crop_documents.py` and
`document.py` that the specification's claims are about:

* CPython `float` arithmetic (IEEE-754 binary64), needed because the
  split thresholds `len(files) // (1 / .6)` and the edge-density
  threshold `0.01 * h * w` are computed in doubles;
* the patch extractor `convert` (crop attempts, edge-density test,
  garbage routing, artifact writes);
* the dataset splitter `split_into_sets` (seeded Fisher–Yates shuffle,
  cutoff partition, manifests);
* the record-store writer `create_lmdb` (batched commits, key layout);
* the `Document` lifecycle of `document.py` (`create`, `save`,
  `save_ground_truth`).

Machine integers never overflow in the modelled code paths (indices and
pixel counts are small), so naturals and integers are used directly;
Python floats are modelled exactly as rationals together with an
explicit round-to-nearest-even function.
-/

namespace SyntheticDocuments

/-! ## CPython float arithmetic

A Python `float` is an IEEE-754 binary64 value; every finite double is a
rational number, and each arithmetic operation rounds the exact rational
result to the nearest representable double (ties to even).  The values
arising in this program are tiny (well inside the normal range), so
overflow and subnormal rounding never occur and are not modelled.

Rational arithmetic is spelled out on numerators and denominators via
`mkRat` / `Rat.divInt` so that every operation is kernel-computable.
-/

/-- Floor of a rational number, as an integer. -/
def qfloor (q : ℚ) : ℤ := q.num.fdiv q.den

/-- Exact sum of two rationals. -/
def qAdd (a b : ℚ) : ℚ := mkRat (a.num * b.den + b.num * a.den) (a.den * b.den)

/-- Exact difference of two rationals. -/
def qSub (a b : ℚ) : ℚ := mkRat (a.num * b.den - b.num * a.den) (a.den * b.den)

/-- Exact product of two rationals. -/
def qMul (a b : ℚ) : ℚ := mkRat (a.num * b.num) (a.den * b.den)

/-- Exact quotient of two rationals. -/
def qDiv (a b : ℚ) : ℚ := Rat.divInt (a.num * b.den) ((a.den : ℤ) * b.num)

/-- Fuel-based base-2 logarithm: `log2fuel f n` is `⌊log₂ n⌋` for
`1 ≤ n < 2 ^ f`.  (Structural recursion on the fuel keeps it
kernel-computable.) -/
def log2fuel : ℕ → ℕ → ℕ
  | 0, _ => 0
  | f + 1, n => if 2 ≤ n then log2fuel f (n / 2) + 1 else 0

/-- Round `n / d` (with `d > 0`) to the nearest natural, ties to even. -/
def rnd (n d : ℕ) : ℕ :=
  let q := n / d
  let r := n % d
  if 2 * r < d then q
  else if d < 2 * r then q + 1
  else if q % 2 = 0 then q else q + 1

/-- The exponent `e` with `2 ^ e ≤ q < 2 ^ (e + 1)`, for `q > 0`. -/
def floorLog2Q (q : ℚ) : ℤ :=
  let n := q.num.toNat
  let d := q.den
  if d ≤ n then (log2fuel 1200 (n / d) : ℤ)
  else
    let k := log2fuel 1200 (d / n)
    if d ≤ n * 2 ^ k then -(k : ℤ) else -(k : ℤ) - 1

/-- Round a positive rational to the nearest IEEE-754 binary64 value:
scale into the 53-bit window given by the exponent, round to nearest
with ties to even, and scale back.  (Normal range only, which covers
every value in the modelled program.) -/
def roundPos (q : ℚ) : ℚ :=
  let e := floorLog2Q q
  let n := q.num.toNat
  let d := q.den
  let s : ℤ := 52 - e
  let m := if 0 ≤ s then rnd (n * 2 ^ s.toNat) d else rnd n (d * 2 ^ (-s).toNat)
  if 0 ≤ s then mkRat m (2 ^ s.toNat) else mkRat ((m : ℤ) * 2 ^ (-s).toNat) 1

/-- Round any rational to the nearest IEEE-754 binary64 value. -/
def roundDouble (q : ℚ) : ℚ :=
  if q.num < 0 then -(roundPos (-q)) else if q.num = 0 then 0 else roundPos q

/-- Python float addition: exact sum, then one rounding. -/
def fadd (a b : ℚ) : ℚ := roundDouble (qAdd a b)

/-- Python float subtraction: exact difference, then one rounding. -/
def fsub (a b : ℚ) : ℚ := roundDouble (qSub a b)

/-- Python float multiplication: exact product, then one rounding. -/
def fmul (a b : ℚ) : ℚ := roundDouble (qMul a b)

/-- Python float division: exact quotient, then one rounding. -/
def fdiv (a b : ℚ) : ℚ := roundDouble (qDiv a b)

/-- C `fmod` for `a ≥ 0`, `b > 0`: the exact value `a - b * ⌊a / b⌋`,
which is always representable, hence no rounding. -/
def fmodPos (a b : ℚ) : ℚ := qSub a (qMul b (qfloor (qDiv a b) : ℚ))

/-- CPython `float_divmod`'s floor quotient (the `//` operator on
floats), for `a ≥ 0`, `b > 0`: C computes `mod = fmod(a, b)` exactly,
then `div = (a - mod) / b` with one rounding per operation, then snaps
`div` to `floor(div)`, adding 1 when `div - floor(div) > 0.5`. -/
def pyFloorDiv (a b : ℚ) : ℚ :=
  let md := fmodPos a b
  let dv := fdiv (fsub a md) b
  let fl : ℤ := qfloor dv
  if (mkRat 1 2 : ℚ) < qSub dv (fl : ℚ) then ((fl + 1 : ℤ) : ℚ) else (fl : ℚ)

/-! ## `crop_documents.py`: directories and file names -/

/-- `ORIGINAL_DIR` (crop_documents.py line 20). -/
def ORIGINAL_DIR : String := "/data/synthetic_trial_results/"

/-- `RESULTS_DIR` (line 21). -/
def RESULTS_DIR : String := "/data/synthetic_trial_final/"

/-- `GARBAGE_DIR` (line 22). -/
def GARBAGE_DIR : String := "/data/garbage/"

/-- `FULL_DIR = RESULTS_DIR + "full/"` (line 24). -/
def FULL_DIR : String := RESULTS_DIR ++ "full/"

/-- `TRAIN_DIR` (line 26). -/
def TRAIN_DIR : String := RESULTS_DIR ++ "train/"

/-- `VAL_DIR` (line 27). -/
def VAL_DIR : String := RESULTS_DIR ++ "val/"

/-- `TEST_DIR` (line 28). -/
def TEST_DIR : String := RESULTS_DIR ++ "test/"

/-- `LABELS_DIR` (line 30). -/
def LABELS_DIR : String := RESULTS_DIR ++ "labels/"

/-- `ORIGINAL_SUBDIR` (line 35). -/
def ORIGINAL_SUBDIR : String := "original_images/"

/-- `GT_SUBDIR` (line 36). -/
def GT_SUBDIR : String := "processed_gt/"

/-- `RECALL_SUBDIR` (line 37). -/
def RECALL_SUBDIR : String := "recall_weights/"

/-- `PRECISION_SUBDIR` (line 38). -/
def PRECISION_SUBDIR : String := "precision_weights/"

/-- A file path split into a directory part and a basename; the
filenames handled by this program contain no path separator, so
`os.path.basename` of a path built as `dir ++ base` is exactly the
`base` field. -/
structure FPath where
  dir : String
  base : String
deriving DecidableEq

/-- Substring test on character lists: embeds Python's `"gt" in file`
(line 50). -/
def hasSubstr (pat : List Char) : List Char → Bool
  | [] => pat.isEmpty
  | c :: rest => pat.isPrefixOf (c :: rest) || hasSubstr pat rest

/-- `file[:-4] + "_gt" + file[-4:]` (line 54): splice `_gt` in front of
the 4-character extension. -/
def gtName (s : String) : String :=
  ⟨s.data.take (s.data.length - 4) ++ "_gt".data ++ s.data.drop (s.data.length - 4)⟩

/-! ## `crop_documents.py`: images and the patch extractor `convert` -/

/-- An in-memory image as handled by `convert`: spatial dimensions
(`shape[0]`, `shape[1]`) and a pixel function (row, column, channel) ↦
intensity.  Embeds the numpy arrays of `crop_documents.py`. -/
structure Img where
  rows : ℕ
  cols : ℕ
  px : ℕ → ℕ → ℕ → ℕ

/-- Length of the numpy slice `a[t:b]` along an axis of size `n`:
numpy clips out-of-range bounds instead of raising. -/
def npSliceLen (n t b : ℕ) : ℕ := min b n - min t n

/-- `img[t:t+256, t:t+256]`: the crop taken by `convert` (lines 73-74),
which uses the single offset `top_left_y` for **both** axes — the
sampled `top_left_x` of line 65 is never used. -/
def cropImg (img : Img) (t : ℕ) : Img :=
  { rows := npSliceLen img.rows t (t + 256)
    cols := npSliceLen img.cols t (t + 256)
    px := fun r c ch => img.px (t + r) (t + c) ch }

/-- `gt = gt[:,:,1]; gt = np.clip(gt, 0, 1); gt = 1 - gt`
(lines 75-77): extract the green channel, clip to {0, 1}, invert. -/
def gtProcess (g : Img) : Img :=
  { rows := g.rows
    cols := g.cols
    px := fun r c _ => 1 - min (g.px r c 1) 1 }

/-- `weighted_image = 128 * np.ones_like(original)` then channel 1
(lines 102-103): a uniform 128-valued map of the crop's spatial size. -/
def weightImg (img : Img) : Img :=
  { rows := img.rows, cols := img.cols, px := fun _ _ _ => 128 }

/-- The double nearest `0.01`, as parsed from the literal of line 83. -/
def c01 : ℚ := roundDouble (mkRat 1 100)

/-- `0.01 * original.shape[0] * original.shape[1]` (line 83), evaluated
left to right in Python float arithmetic (`int` operands are converted
exactly to doubles at these magnitudes). -/
def thresh (h w : ℕ) : ℚ := fmul (fmul c01 (roundDouble (h : ℚ))) (roundDouble (w : ℚ))

/-- `pixel_count > 0.01 * original.shape[0] * original.shape[1]`
(line 83): Python compares an `int` with a `float` exactly. -/
def acceptCrop (count h w : ℕ) : Bool := decide (thresh h w < (count : ℚ))

/-- The external OpenCV operations used by `convert`, supplied as
parameters of the embedding: `cv2.imread`, `cv2.Canny` composed with
`cv2.countNonZero` (lines 79-81), and `cv2.cvtColor` grayscale
conversion (line 106). -/
structure CvEnv where
  imread : String → Img
  edgeCount : Img → ℕ
  gray : Img → Img

/-- How one call to `convert` ended. -/
inductive ConvertOutcome
  | skippedGt
  | skippedSmall
  | garbage
  | accepted
deriving DecidableEq

/-- The observable effect of one call to `convert`: the files written
(path and image, in write order) and how the call ended.  `convert`
always returns normally in the modelled paths; no exception arises. -/
structure ConvertResult where
  writes : List (FPath × Img)
  outcome : ConvertOutcome

/-- Whether one crop attempt with randint pair `r` passes the
edge-density test: crop at `r.2` (`top_left_y`), Canny edge count,
strict comparison against the 1% threshold (lines 73-83). -/
def attemptAccepted (env : CvEnv) (original : Img) (r : ℕ × ℕ) : Bool :=
  let c := cropImg original r.2
  acceptCrop (env.edgeCount c) c.rows c.cols

/-- The four artifact writes of an accepted patch (lines 97-111).
Line 97 rebinds `file` to `FULL_DIR + ORIGINAL_SUBDIR + basename(file)`,
and lines 98-100 then all take `os.path.basename(file)` of that rebound
path, so all four files share the original image's basename.  The
weight map is built from the crop before the optional grayscale
conversion of lines 105-106. -/
def acceptedWrites (env : CvEnv) (name : String) (grayscale : Bool)
    (original gt : Img) : List (FPath × Img) :=
  let w := weightImg original
  let finalOrig := if grayscale then env.gray original else original
  [(⟨FULL_DIR ++ ORIGINAL_SUBDIR, name⟩, finalOrig),
   (⟨FULL_DIR ++ GT_SUBDIR, name⟩, gt),
   (⟨FULL_DIR ++ RECALL_SUBDIR, name⟩, w),
   (⟨FULL_DIR ++ PRECISION_SUBDIR, name⟩, w)]

/-- The crop-attempt loop of `convert` (lines 64-95).  Each element of
`rands` is the pair returned by the two `random.randint` calls of one
attempt; only the second component (`top_left_y`) influences the crop,
as in the source.  A passing test breaks out into the accepted-patch
writes; on the last attempt (`x == 4`, i.e. `rest = []` for the
five-element list `range(5)` produces) a failing test routes the two
cropped images, as they stand, to the garbage directory and returns;
otherwise the pre-crop images are restored (lines 94-95) and the next
attempt runs.  An empty attempt list falls through to the
accepted-patch writes, as Python's `for` over an empty range would. -/
def cropLoop (env : CvEnv) (name : String) (grayscale : Bool)
    (original gt : Img) : List (ℕ × ℕ) → ConvertResult
  | [] => { writes := acceptedWrites env name grayscale original gt
            outcome := .accepted }
  | r :: rest =>
    let origC := cropImg original r.2
    let gtC := gtProcess (cropImg gt r.2)
    if acceptCrop (env.edgeCount origC) origC.rows origC.cols then
      { writes := acceptedWrites env name grayscale origC gtC
        outcome := .accepted }
    else if rest.isEmpty then
      { writes := [(⟨GARBAGE_DIR, name⟩, origC), (⟨GARBAGE_DIR, gtName name⟩, gtC)]
        outcome := .garbage }
    else
      cropLoop env name grayscale original gt rest

/-- `convert` (lines 46-111).  `name` is the bare filename from
`os.listdir`; `rands` lists the randint pairs of the successive crop
attempts (five of them, from `range(5)`).  Skips any filename
containing `"gt"` (line 50), then skips originals smaller than 256 in
either dimension (line 59), then runs the crop-attempt loop. -/
def convert (env : CvEnv) (name : String) (grayscale : Bool)
    (rands : List (ℕ × ℕ)) : ConvertResult :=
  if hasSubstr "gt".data name.data then { writes := [], outcome := .skippedGt }
  else
    let original := env.imread (ORIGINAL_DIR ++ name)
    let gt := env.imread (gtName (ORIGINAL_DIR ++ name))
    if original.rows < 256 ∨ original.cols < 256 then
      { writes := [], outcome := .skippedSmall }
    else cropLoop env name grayscale original gt rands

/-! ## `crop_documents.py`: the dataset splitter `split_into_sets` -/

/-- Swap the elements at positions `i` and `j` of a list (the tuple
assignment `x[i], x[j] = x[j], x[i]` of CPython's `random.shuffle`). -/
def listSwap {α : Type} (l : List α) (i j : ℕ) : List α :=
  match l.get? i, l.get? j with
  | some a, some b => (l.set i b).set j a
  | _, _ => l

/-- Fisher–Yates as implemented by CPython's `random.shuffle`: for `i`
from `n - 1` down to `1`, swap positions `i` and `_randbelow(i + 1)`.
`rng t` is the `t`-th draw of the seeded generator; `_randbelow (i+1)`
is modelled as that draw reduced mod `i + 1`, a deterministic function
of the seed and the call counter `t`. -/
def shuffleGo {α : Type} (rng : ℕ → ℕ) : ℕ → ℕ → List α → List α
  | _, 0, l => l
  | t, i + 1, l => shuffleGo rng (t + 1) i (listSwap l (i + 1) (rng t % (i + 2)))

/-- `random.shuffle(sequence)` (line 121). -/
def pyShuffle {α : Type} (rng : ℕ → ℕ) (l : List α) : List α :=
  shuffleGo rng 0 (l.length - 1) l

/-- A deterministic stream of generator draws obtained from a seed;
models CPython's seeded Mersenne Twister at the only fidelity the
claims need: the stream is a function of the seed alone. -/
def seededRng (seed : ℕ) : ℕ → ℕ :=
  fun t => (1103515245 * (seed + 2654435761 * t) + 12345) % 2147483648

/-- `train_cut_off = len(files) // (1 / .6)` (line 124), in Python
float arithmetic: the literal `.6` is the nearest double, `1 / .6` a
rounded division, the integer length is converted exactly, and `//` is
CPython float floor-division. -/
def train_cut_off (n : ℕ) : ℚ :=
  pyFloorDiv (roundDouble (n : ℚ)) (fdiv 1 (roundDouble (mkRat 6 10)))

/-- `val_cut_off = len(files) // (1 / .8)` (line 125). -/
def val_cut_off (n : ℕ) : ℚ :=
  pyFloorDiv (roundDouble (n : ℚ)) (fdiv 1 (roundDouble (mkRat 8 10)))

/-- The moves and manifests produced by one run of `split_into_sets`:
the filenames moved into each split (in move order) and the manifest
files written at the end, as (path, text) pairs. -/
structure SplitResult where
  train : List String
  val : List String
  test : List String
  manifests : List (String × String)
deriving DecidableEq

/-- One manifest body: `./{file}\n` per listed file (line 157). -/
def manifestText (files : List String) : String :=
  files.foldr (fun f acc => "./" ++ f ++ "\n" ++ acc) ""

/-- `split_into_sets` (lines 113-157).  `files` is the directory
listing of `FULL_DIR + ORIGINAL_SUBDIR`; the shuffled index sequence is
walked with `enumerate`, and each position `count` is routed by
comparing the `int` `count` against the float cutoffs (an exact
comparison).  The four per-file moves share the one filename, so the
moved-file lists determine every move.  The manifests are written in
the source's order train, test, val (line 152), listing each split
directory's content — the files just moved there, the target
directories having been freshly created by the setup steps. -/
def split_into_sets (rng : ℕ → ℕ) (files : List String) : SplitResult :=
  let sequence := pyShuffle rng (List.range files.length)
  let tc := train_cut_off files.length
  let vc := val_cut_off files.length
  let fileAt := fun i => files.getD i ""
  let train := (sequence.enum.filter fun p => decide ((p.1 : ℚ) < tc)).map fun p => fileAt p.2
  let val := (sequence.enum.filter fun p =>
    !(decide ((p.1 : ℚ) < tc)) && decide ((p.1 : ℚ) < vc)).map fun p => fileAt p.2
  let test := (sequence.enum.filter fun p =>
    !(decide ((p.1 : ℚ) < tc)) && !(decide ((p.1 : ℚ) < vc))).map fun p => fileAt p.2
  { train := train
    val := val
    test := test
    manifests := [(LABELS_DIR ++ "train.txt", manifestText train),
                  (LABELS_DIR ++ "test.txt", manifestText test),
                  (LABELS_DIR ++ "val.txt", manifestText val)] }

/-! ## `crop_documents.py`: the record-store writer `create_lmdb` -/

/-- `os.path.splitext(s)[0]` for a flat filename: strip the suffix from
the last dot on, when a dot is present. -/
def splitextStem (s : String) : String :=
  if s.data.contains '.' then ⟨((s.data.reverse.dropWhile (· ≠ '.')).drop 1).reverse⟩
  else s

/-- One record key, `"%d:%d:%s" % (76547000 + x * 37, x, stem)`
(line 214), kept as its three fields: the strided numeric prefix, the
sequential index, and the extensionless basename.  The decimal
rendering of the two numbers is injective, so keys coincide exactly
when these fields do. -/
structure LmdbKey where
  pre : ℕ
  idx : ℕ
  stem : String
deriving DecidableEq

/-- The key written for file number `x` named `name`. -/
def lmdbKey (x : ℕ) (name : String) : LmdbKey :=
  { pre := 76547000 + 37 * x, idx := x, stem := splitextStem name }

/-- The transactional state of `create_lmdb`: puts pending in the open
transaction, records already committed to the store (in commit order),
and the loop indices after whose put a commit-and-sync ran. -/
structure LmdbState where
  txn : List LmdbKey
  store : List LmdbKey
  commitsAt : List ℕ
  finalCommit : Bool
deriving DecidableEq

/-- One loop iteration of `create_lmdb` (lines 194-222): put the
record for file `x` into the open transaction, then, when
`x % 10 == 0`, commit the transaction, sync, and open a fresh one. -/
def lmdbStep (st : LmdbState) (x : ℕ) (name : String) : LmdbState :=
  let st1 := { st with txn := st.txn ++ [lmdbKey x name] }
  if x % 10 = 0 then
    { txn := [], store := st1.store ++ st1.txn
      commitsAt := st1.commitsAt ++ [x], finalCommit := st1.finalCommit }
  else st1

/-- The `enumerate` loop of `create_lmdb`, carried out from index `x`
over the remaining names. -/
def lmdbGo (x : ℕ) (st : LmdbState) : List String → LmdbState
  | [] => st
  | n :: rest => lmdbGo (x + 1) (lmdbStep st x n) rest

/-- `create_lmdb` (lines 192-233) over a directory listing `names`:
run the enumerate loop from index 0 with an empty store, then perform
the final `txn.commit()` of line 232, flushing whatever the open
transaction still holds. -/
def create_lmdb (names : List String) : LmdbState :=
  let st := lmdbGo 0 ⟨[], [], [], false⟩ names
  { txn := [], store := st.store ++ st.txn, commitsAt := st.commitsAt, finalCommit := true }

/-! ## `document.py`: the `Document` lifecycle -/

/-- `TMP_DIR` of `document.py` (read from `settings.ini`; its value is
irrelevant, only its role as a path prefix matters). -/
def TMP_DIR : String := "/dev/shm/"

/-- The claim-relevant state of a `Document` (document.py lifecycle
fields, lines 92-93 and 98-108). -/
structure DocState where
  result : Option String
  result_ground_truth : Option String
  random_seed : ℕ
  output_dir : String

/-- The exception a modelled OpenCV / shutil call can raise. -/
inductive PyError
  | nullImageWrite
deriving DecidableEq

/-- The collaborators of `Document.create`, supplied as parameters:
the background image as read by `cv2.imread` (line 189; `none` means
the read failed), the faded decoy layer `_add_text_fade`, the real
text layer `_add_text` — which returns the composited page and the
ground-truth image, or `none` when the word layout reports no
available position before any word is placed (line 425: the
`all_words is None` path of lines 433-435, which prints and returns
`None` without writing a ground truth) — the 0.3-probability roll of
line 192/221, and the image produced by the first DivaDID pass and
read back at line 216 (`none` means that read failed). -/
structure DocEnv where
  bgImage : Option Img
  addTextFade : Img → Img
  addText : Img → Option (Img × Img)
  fadeRoll : Bool
  divadid1 : Option Img

/-- The effects of `_add_text` (lines 384-449) on the document state:
on success the ground-truth image is written to
`TMP_DIR/{seed}_gt.png` and `result_ground_truth` is set (lines
445-447); on the no-glyph path nothing is written and the state is
untouched. -/
def addTextStep (env : DocEnv) (doc : DocState) (img : Img) :
    DocState × List (String × Img) × Option Img :=
  match env.addText img with
  | none => (doc, [], none)
  | some (img2, gtImg) =>
    let gtPath := TMP_DIR ++ toString doc.random_seed ++ "_gt.png"
    ({ doc with result_ground_truth := some gtPath }, [(gtPath, gtImg)], some img2)

/-- The path `degraded_{seed}_{index}.png` inside the working
directory (lines 490, 501/504). -/
def degradedPath (doc : DocState) (index : ℕ) : String :=
  TMP_DIR ++ "degraded_" ++ toString doc.random_seed ++ "_" ++ toString index ++ ".png"

/-- `Document.create` (lines 159-245).  Returns the updated document
state and the images written, or the exception that escaped.  In both
branches the composited page is handed to `cv2.imwrite` without a
`None` check (lines 199 and 227), and `cv2.imwrite` raises on a `None`
image, so the no-glyph path of `_add_text` turns into an exception.
`self.result` is assigned only after that write (lines 201, 241), so
on the exception path it keeps its prior value.  The DivaDID
invocations themselves are external collaborators; `env.divadid1`
stands for the image their first pass produced. -/
def create (env : DocEnv) (doc : DocState) (bypass : Bool) :
    Except PyError (DocState × List (String × Img)) :=
  let path := TMP_DIR ++ toString doc.random_seed ++ "_augmented.png"
  if bypass then
    match env.bgImage with
    | none => .ok (doc, [])
    | some img0 =>
      let img1 := if env.fadeRoll then env.addTextFade img0 else img0
      match addTextStep env doc img1 with
      | (_, _, none) => .error .nullImageWrite
      | (doc1, ws, some img2) => .ok ({ doc1 with result := some path }, ws ++ [(path, img2)])
  else
    match env.divadid1 with
    | none => .ok (doc, [])
    | some img0 =>
      let img1 := if env.fadeRoll then env.addTextFade img0 else img0
      match addTextStep env doc img1 with
      | (_, _, none) => .error .nullImageWrite
      | (doc1, ws, some img2) =>
        .ok ({ doc1 with result := some (degradedPath doc 2) }, ws ++ [(path, img2)])

/-- A filesystem operation performed by the save functions. -/
inductive FsOp
  | makedirs (d : String)
  | copy (src dst : String)
  | remove (p : String)
deriving DecidableEq

/-- How a save call ended: logged-and-returned without touching the
filesystem, or performed the listed operations in order. -/
inductive SaveResult
  | loggedNoResult
  | raisedCopyNone
  | saved (ops : List FsOp)
deriving DecidableEq

/-- `Document.save` (lines 247-281): with no result, log and return;
otherwise create the output directory (idempotently), copy the result
into place, and delete the temporary source (line 281). -/
def save (doc : DocState) (file : Option String) : SaveResult :=
  match doc.result with
  | none => .loggedNoResult
  | some r =>
    let f := match file with
      | none => "img_" ++ toString doc.random_seed ++ ".png"
      | some f => f
    let dst := doc.output_dir ++ "/" ++ f
    .saved [.makedirs doc.output_dir, .copy r dst, .remove r]

/-- `Document.save_ground_truth` (lines 283-315): guards on
`self.result` (line 298), copies `self.result_ground_truth` (line 314)
— raising if that is `None` — and performs no delete. -/
def save_ground_truth (doc : DocState) (file : Option String) : SaveResult :=
  match doc.result with
  | none => .loggedNoResult
  | some _ =>
    let f := match file with
      | none => "img_" ++ toString doc.random_seed ++ "_gt.png"
      | some f => f
    let dst := doc.output_dir ++ "/" ++ f
    match doc.result_ground_truth with
    | none => .raisedCopyNone
    | some g => .saved [.makedirs doc.output_dir, .copy g dst]

/-! ## Concrete instances used to evaluate the embedded code -/

/-- A 256-row by 300-column all-black original, together with OpenCV
operations that report strong edge content everywhere (so the first
crop attempt is accepted) and an identity grayscale conversion. -/
def imgWide : Img := { rows := 256, cols := 300, px := fun _ _ _ => 0 }

/-- Environment for evaluating `convert` on `imgWide`. -/
def envC1 : CvEnv :=
  { imread := fun _ => imgWide, edgeCount := fun _ => 65536, gray := fun i => i }

/-- A 256 by 256 all-black image. -/
def imgSq : Img := { rows := 256, cols := 256, px := fun _ _ _ => 0 }

/-- Environment whose edge detector reports no edges at all: every
crop attempt fails the content test. -/
def envNoEdges : CvEnv :=
  { imread := fun _ => imgSq, edgeCount := fun _ => 0, gray := fun i => i }

/-- Environment whose edge detector reports 65536 edge pixels: every
crop attempt passes the content test. -/
def envAllEdges : CvEnv :=
  { imread := fun _ => imgSq, edgeCount := fun _ => 65536, gray := fun i => i }

/-! ## The claims -/

/-- C1: the claim says each crop attempt extracts a 256 by 256 region
at a randomly chosen (x, y) offset shared by image and ground truth,
so every accepted patch is 256 by 256.  Evaluating the embedded
`convert` on a 256 by 300 original with randint values
`top_left_x = 0`, `top_left_y = 44` (both within their sampling
ranges: 0 ≤ 0 ≤ 256 - 256 and 0 ≤ 44 ≤ 300 - 256) shows the accepted
patch and all companion artifacts measure 212 by 256, because lines
73-74 slice both axes with `top_left_y` and numpy clips the row range
at 256: the code contradicts the claim. -/
theorem C1_accepted_patch_not_256 :
    44 ≤ 300 - 256 ∧
    (convert envC1 "doc1.png" true [(0, 44), (0, 0), (0, 0), (0, 0), (0, 0)]).outcome
      = ConvertOutcome.accepted ∧
    ((convert envC1 "doc1.png" true [(0, 44), (0, 0), (0, 0), (0, 0), (0, 0)]).writes.map
      fun w => ((w.2).rows, (w.2).cols))
      = [(212, 256), (212, 256), (212, 256), (212, 256)] ∧
    ((212, 256) : ℕ × ℕ) ≠ (256, 256) := by
  decide

/-- C3: the claim says a document whose real text layer places no
glyphs finishes `create` with `result` still `None` and no exception.
In the code, `_add_text` returns `None` on that path (line 435) but
`create` passes the value straight to `cv2.imwrite` (lines 199 and
227), which raises on a `None` image, so `create` terminates with an
exception instead of returning normally — in both the bypass and the
full branch.  (`self.result` does stay unset and no page image is
written, since the raise happens before either.) -/
theorem C3_empty_text_layer_raises (env : DocEnv) (doc : DocState)
    (hAdd : ∀ im, env.addText im = none) :
    (∀ b, env.bgImage = some b → create env doc true = .error .nullImageWrite) ∧
    (∀ b, env.divadid1 = some b → create env doc false = .error .nullImageWrite) := by
  constructor <;> intro b hb <;> simp [create, hb, addTextStep, hAdd]

/-- A background image for the C3 witness. -/
def envC3 : DocEnv :=
  { bgImage := some imgSq, addTextFade := fun i => i, addText := fun _ => none
    fadeRoll := false, divadid1 := some imgSq }

/-- A document freshly constructed (no result yet). -/
def docC3 : DocState :=
  { result := none, result_ground_truth := none, random_seed := 42
    output_dir := "/data/out" }

/-- Witness for C3: at the concrete environment whose word layout
never finds a position, `create` raises in both branches. -/
theorem C3_empty_text_layer_raises_witness :
    create envC3 docC3 true = .error .nullImageWrite ∧
    create envC3 docC3 false = .error .nullImageWrite :=
  ⟨(C3_empty_text_layer_raises envC3 docC3 (fun _ => rfl)).1 imgSq rfl,
   (C3_empty_text_layer_raises envC3 docC3 (fun _ => rfl)).2 imgSq rfl⟩

/-- Ten patch filenames, for evaluating the splitter. -/
def filesC5 : List String :=
  ["p0.png", "p1.png", "p2.png", "p3.png", "p4.png",
   "p5.png", "p6.png", "p7.png", "p8.png", "p9.png"]

/-- C5: the claim says the cutoffs sit at 60% and 80% of the total, so
10 patches split 6/2/2.  In IEEE doubles, `1 / .6` rounds up to
1.6666666666666667406…, whence `10 // (1 / .6)` is 5.0 (not 6.0), and
`10 // (1 / .8)` is 8.0; evaluating the embedded `split_into_sets` on
10 files therefore lands 5 in train, 3 in val and 2 in test —
contradicting the claim (and the 60/20/20 comment of lines 123-125). -/
theorem C5_ten_files_split_5_3_2 :
    train_cut_off 10 = 5 ∧ val_cut_off 10 = 8 ∧
    (split_into_sets (seededRng 0) filesC5).train.length = 5 ∧
    (split_into_sets (seededRng 0) filesC5).val.length = 3 ∧
    (split_into_sets (seededRng 0) filesC5).test.length = 2 := by
  decide

/-- C6: re-running the splitter with the same shuffle seed and the
same input file list produces the identical partition and the
identical manifest contents.  The embedded run is a pure function of
the seed (through the deterministic generator stream) and the file
list, so two runs with equal inputs agree on every field. -/
theorem C6_splitter_deterministic (s₁ s₂ : ℕ) (f₁ f₂ : List String)
    (hs : s₁ = s₂) (hf : f₁ = f₂) :
    split_into_sets (seededRng s₁) f₁ = split_into_sets (seededRng s₂) f₂ := by
  subst hs; subst hf; rfl

/-- Witness for C6 at a concrete seed and file list. -/
theorem C6_splitter_deterministic_witness :
    split_into_sets (seededRng 7) ["a.png", "b.png", "c.png"]
      = split_into_sets (seededRng 7) ["a.png", "b.png", "c.png"] :=
  C6_splitter_deterministic 7 7 ["a.png", "b.png", "c.png"] ["a.png", "b.png", "c.png"] rfl rfl

/-- C8: with no result, both save functions log and return with no
filesystem effect and no raise; with a result, `save` copies the page
and then deletes its temporary source, while `save_ground_truth`
copies the ground-truth source and performs no delete (so it can be
saved again). -/
theorem C8_save_guards_and_cleanup (doc : DocState) (f : Option String) :
    (doc.result = none →
      save doc f = .loggedNoResult ∧ save_ground_truth doc f = .loggedNoResult) ∧
    (∀ r, doc.result = some r →
      save doc f = .saved [.makedirs doc.output_dir,
        .copy r (doc.output_dir ++ "/"
          ++ f.getD ("img_" ++ toString doc.random_seed ++ ".png")),
        .remove r] ∧
      (∀ g, doc.result_ground_truth = some g →
        save_ground_truth doc f = .saved [.makedirs doc.output_dir,
          .copy g (doc.output_dir ++ "/"
            ++ f.getD ("img_" ++ toString doc.random_seed ++ "_gt.png"))])) := by
  constructor
  · intro h
    constructor <;> simp [save, save_ground_truth, h]
  · intro r hr
    constructor
    · cases f <;> simp [save, hr, Option.getD]
    · intro g hg
      cases f <;> simp [save_ground_truth, hr, hg, Option.getD]

/-- A finished document: page and ground truth both produced. -/
def docC8 : DocState :=
  { result := some "/dev/shm/42_augmented.png"
    result_ground_truth := some "/dev/shm/42_gt.png", random_seed := 42
    output_dir := "/data/out" }

/-- Witness for C8 at a fresh document (no result) and at a finished
document (result and ground truth present). -/
theorem C8_save_guards_and_cleanup_witness :
    (save docC3 none = .loggedNoResult ∧
      save_ground_truth docC3 none = .loggedNoResult) ∧
    save docC8 none = .saved [.makedirs "/data/out",
      .copy "/dev/shm/42_augmented.png" ("/data/out" ++ "/" ++ "img_42.png"),
      .remove "/dev/shm/42_augmented.png"] ∧
    save_ground_truth docC8 none = .saved [.makedirs "/data/out",
      .copy "/dev/shm/42_gt.png" ("/data/out" ++ "/" ++ "img_42_gt.png")] :=
  ⟨(C8_save_guards_and_cleanup docC3 none).1 rfl,
   ((C8_save_guards_and_cleanup docC8 none).2 "/dev/shm/42_augmented.png" rfl).1,
   ((C8_save_guards_and_cleanup docC8 none).2 "/dev/shm/42_augmented.png" rfl).2
     "/dev/shm/42_gt.png" rfl⟩

/-- C9: any input filename containing the substring `"gt"` makes
`convert` return at once (line 50): no write of any kind, regardless
of the images, the grayscale flag or the randint draws. -/
theorem C9_gt_names_skipped (env : CvEnv) (name : String) (gs : Bool)
    (rands : List (ℕ × ℕ)) (h : hasSubstr "gt".data name.data = true) :
    convert env name gs rands = { writes := [], outcome := .skippedGt } := by
  simp [convert, h]

/-- Witness for C9: a companion ground-truth name and an unrelated
name that merely contains `"gt"` are both skipped. -/
theorem C9_gt_names_skipped_witness :
    convert envAllEdges "doc1_gt.png" true [(0, 0)]
      = { writes := [], outcome := .skippedGt } ∧
    convert envAllEdges "august_gta.png" false []
      = { writes := [], outcome := .skippedGt } :=
  ⟨C9_gt_names_skipped envAllEdges "doc1_gt.png" true [(0, 0)] (by decide),
   C9_gt_names_skipped envAllEdges "august_gta.png" false [] (by decide)⟩

/-! ## Loop invariants of the record-store writer -/

/-- Running the enumerate loop from index `x` appends, across the
committed store and the open transaction together, exactly one record
per remaining file, keyed with the consecutive indices `x, x+1, …`. -/
theorem lmdbGo_entries (names : List String) : ∀ (x : ℕ) (st : LmdbState),
    (lmdbGo x st names).store ++ (lmdbGo x st names).txn =
      st.store ++ st.txn
        ++ ((List.range' x names.length).zip names).map (fun p => lmdbKey p.1 p.2) := by
  induction names with
  | nil => intro x st; simp [lmdbGo]
  | cons n rest ih =>
    intro x st
    simp only [lmdbGo, List.length_cons]
    rw [ih, List.range'_succ]
    simp only [List.zip_cons_cons, List.map_cons, lmdbStep]
    split <;> simp

/-- Running the enumerate loop from index `x` commits exactly at the
remaining indices divisible by 10. -/
theorem lmdbGo_commits (names : List String) : ∀ (x : ℕ) (st : LmdbState),
    (lmdbGo x st names).commitsAt =
      st.commitsAt ++ (List.range' x names.length).filter (fun y => decide (y % 10 = 0)) := by
  induction names with
  | nil => intro x st; simp [lmdbGo]
  | cons n rest ih =>
    intro x st
    simp only [lmdbGo, List.length_cons]
    rw [ih, List.range'_succ]
    simp only [List.filter_cons, lmdbStep]
    split <;> simp_all

/-- 25 file names, for evaluating the record-store writer. -/
def namesC2 : List String :=
  ["f00.png", "f01.png", "f02.png", "f03.png", "f04.png",
   "f05.png", "f06.png", "f07.png", "f08.png", "f09.png",
   "f10.png", "f11.png", "f12.png", "f13.png", "f14.png",
   "f15.png", "f16.png", "f17.png", "f18.png", "f19.png",
   "f20.png", "f21.png", "f22.png", "f23.png", "f24.png"]

/-- C2 counterexample: the claim says commits happen exactly after
every 10th write — for 25 files, intermediate commits at indices 10
and 20 only.  The loop guard `x % 10 == 0` (line 217) also fires at
`x = 0`, so the run on 25 files commits at indices 0, 10 and 20: a
commit directly after the first write, which the claim excludes. -/
theorem C2_commit_after_first_write :
    (create_lmdb namesC2).commitsAt = [0, 10, 20] ∧
    (create_lmdb namesC2).commitsAt ≠ [10, 20] := by
  decide

/-- C2 (amended): `create_lmdb` writes one record per input file under
pairwise-distinct keys whose index components are the gapless sequence
0..24, commits inside the loop exactly at the indices divisible by 10
— which for 25 files means 0, 10 and 20, i.e. after the 1st, 11th and
21st writes — and performs one final commit after the loop. -/
theorem C2_batched_commits (names : List String) (h : names.length = 25) :
    (create_lmdb names).store.length = 25 ∧
    (create_lmdb names).store.map (fun k => k.idx) = List.range 25 ∧
    (create_lmdb names).store.Nodup ∧
    (create_lmdb names).commitsAt = [0, 10, 20] ∧
    (create_lmdb names).finalCommit = true := by
  have hst : (create_lmdb names).store
      = ((List.range' 0 25).zip names).map (fun p => lmdbKey p.1 p.2) := by
    have he := lmdbGo_entries names 0 ⟨[], [], [], false⟩
    simpa [create_lmdb, h] using he
  have hmap : (create_lmdb names).store.map (fun k => k.idx) = List.range 25 := by
    rw [hst, List.map_map]
    have : ((fun k => LmdbKey.idx k) ∘ fun p : ℕ × String => lmdbKey p.1 p.2) = Prod.fst := by
      funext p; simp [lmdbKey]
    rw [this, List.map_fst_zip _ _ (by simp [h]), List.range_eq_range']
  refine ⟨?_, hmap, ?_, ?_, ?_⟩
  · have := congrArg List.length hmap
    simpa using this
  · exact List.Nodup.of_map _ (hmap ▸ List.nodup_range 25)
  · have hc := lmdbGo_commits names 0 ⟨[], [], [], false⟩
    have : (create_lmdb names).commitsAt
        = (List.range' 0 25).filter (fun y => decide (y % 10 = 0)) := by
      simpa [create_lmdb, h] using hc
    rw [this, ← List.range_eq_range']
    decide
  · simp [create_lmdb]

/-- Witness for C2: the amended statement holds at the concrete
25-name listing. -/
theorem C2_batched_commits_witness :
    namesC2.length = 25 ∧
    ((create_lmdb namesC2).store.length = 25 ∧
      (create_lmdb namesC2).store.map (fun k => k.idx) = List.range 25 ∧
      (create_lmdb namesC2).store.Nodup ∧
      (create_lmdb namesC2).commitsAt = [0, 10, 20] ∧
      (create_lmdb namesC2).finalCommit = true) :=
  ⟨by decide, C2_batched_commits namesC2 (by decide)⟩

/-- C4: when all five crop attempts fail the edge-density test,
`convert` writes exactly one file pair — the fifth attempt's cropped
image and processed ground-truth crop, as they stand — to the garbage
directory, produces no patch and no weight maps, and returns normally
(the garbage outcome, not an exception). -/
theorem C4_all_attempts_fail_garbage (env : CvEnv) (name : String) (gs : Bool)
    (original gtimg : Img) (r0 r1 r2 r3 r4 : ℕ × ℕ)
    (hname : hasSubstr "gt".data name.data = false)
    (horig : env.imread (ORIGINAL_DIR ++ name) = original)
    (hgt : env.imread (gtName (ORIGINAL_DIR ++ name)) = gtimg)
    (hrows : 256 ≤ original.rows) (hcols : 256 ≤ original.cols)
    (hfail : ∀ r ∈ [r0, r1, r2, r3, r4], attemptAccepted env original r = false) :
    convert env name gs [r0, r1, r2, r3, r4] =
      { writes := [(⟨GARBAGE_DIR, name⟩, cropImg original r4.2),
                   (⟨GARBAGE_DIR, gtName name⟩, gtProcess (cropImg gtimg r4.2))],
        outcome := .garbage } := by
  have h0 := hfail r0 (by simp)
  have h1 := hfail r1 (by simp)
  have h2 := hfail r2 (by simp)
  have h3 := hfail r3 (by simp)
  have h4 := hfail r4 (by simp)
  simp only [attemptAccepted] at h0 h1 h2 h3 h4
  have hsize : ¬(original.rows < 256 ∨ original.cols < 256) := by omega
  simp [convert, hname, horig, hgt, hsize, cropLoop, h0, h1, h2, h3, h4]

/-- Witness for C4: on the 256 by 256 original with an edge detector
reporting zero edges, all five attempts fail and the last crop pair
goes to the garbage directory. -/
theorem C4_all_attempts_fail_garbage_witness :
    convert envNoEdges "doc1.png" true [(0, 0), (0, 0), (0, 0), (0, 0), (0, 0)] =
      { writes := [(⟨GARBAGE_DIR, "doc1.png"⟩, cropImg imgSq 0),
                   (⟨GARBAGE_DIR, gtName "doc1.png"⟩, gtProcess (cropImg imgSq 0))],
        outcome := .garbage } :=
  C4_all_attempts_fail_garbage envNoEdges "doc1.png" true imgSq imgSq
    (0, 0) (0, 0) (0, 0) (0, 0) (0, 0)
    (by decide) rfl rfl (by decide) (by decide) (by decide)

/-! ## Structure of the crop-attempt loop -/

/-- The crop-attempt loop accepts exactly the first attempt whose crop
passes the edge-density test: if attempts before `i` fail and attempt
`i` passes, the loop returns the accepted-patch writes built from the
attempt-`i` crop.  (The test applied at every attempt is the same
function `attemptAccepted` of the crop alone, so a given crop is
treated identically at whichever attempt it appears.) -/
theorem cropLoop_first_accept (env : CvEnv) (name : String) (gs : Bool)
    (original gtimg : Img) :
    ∀ (rands : List (ℕ × ℕ)) (i : ℕ), i < rands.length →
      (∀ j, j < i → attemptAccepted env original (rands.getD j (0, 0)) = false) →
      attemptAccepted env original (rands.getD i (0, 0)) = true →
      cropLoop env name gs original gtimg rands =
        { writes := acceptedWrites env name gs (cropImg original (rands.getD i (0, 0)).2)
            (gtProcess (cropImg gtimg (rands.getD i (0, 0)).2))
          outcome := .accepted } := by
  intro rands
  induction rands with
  | nil => intro i hi _ _; simp at hi
  | cons r rest ih =>
    intro i hi hbefore hacc
    cases i with
    | zero =>
      have hacc0 : acceptCrop (env.edgeCount (cropImg original r.2))
          (cropImg original r.2).rows (cropImg original r.2).cols = true := by
        simpa [attemptAccepted] using hacc
      simp [cropLoop, hacc0]
    | succ i =>
      have h0 : acceptCrop (env.edgeCount (cropImg original r.2))
          (cropImg original r.2).rows (cropImg original r.2).cols = false := by
        simpa [attemptAccepted] using hbefore 0 (Nat.succ_pos i)
      cases rest with
      | nil => simp at hi
      | cons r2 rest2 =>
        have hrec := ih i (Nat.lt_of_succ_lt_succ hi)
          (fun j hj => by simpa using hbefore (j + 1) (Nat.succ_lt_succ hj))
          (by simpa using hacc)
        simpa [cropLoop, h0] using hrec

/-- Any accepted outcome of the crop-attempt loop wrote exactly the
four artifact files, in the four split subdirectories, all under the
one basename `name`. -/
theorem cropLoop_accepted_writes (env : CvEnv) (name : String) (gs : Bool)
    (original gtimg : Img) :
    ∀ (rands : List (ℕ × ℕ)),
      (cropLoop env name gs original gtimg rands).outcome = .accepted →
      (cropLoop env name gs original gtimg rands).writes.map Prod.fst =
        [⟨FULL_DIR ++ ORIGINAL_SUBDIR, name⟩, ⟨FULL_DIR ++ GT_SUBDIR, name⟩,
         ⟨FULL_DIR ++ RECALL_SUBDIR, name⟩, ⟨FULL_DIR ++ PRECISION_SUBDIR, name⟩] := by
  intro rands
  induction rands with
  | nil => intro _; simp [cropLoop, acceptedWrites]
  | cons r rest ih =>
    intro h
    by_cases hacc : acceptCrop (env.edgeCount (cropImg original r.2))
        (cropImg original r.2).rows (cropImg original r.2).cols = true
    · simp [cropLoop, hacc, acceptedWrites]
    · cases hre : rest.isEmpty with
      | true =>
        exfalso
        simp [cropLoop, hacc, hre] at h
      | false =>
        simp only [cropLoop, hacc, if_false, Bool.false_eq_true, hre] at h ⊢
        exact ih h

/-- C7: `convert` accepts the first crop whose edge count strictly
exceeds the float threshold `0.01 * h * w` — the same test at every
attempt — and a crop whose edge fraction sits exactly on the 1%
boundary is rejected, at any attempt; in particular, for the nominal
256 by 256 crop, acceptance is equivalent to the exact strict
comparison `100 * count > 256 * 256` (the boundary count 655.36 is not
attainable by an integer).  Crops always have width 256 (the column
offset is at most `cols - 256`), and their height is at most 256, so
the boundary statement quantifies over heights up to 256. -/
theorem C7_first_accept_and_boundary :
    (∀ (env : CvEnv) (name : String) (gs : Bool) (original gtimg : Img)
       (rands : List (ℕ × ℕ)) (i : ℕ),
       hasSubstr "gt".data name.data = false →
       env.imread (ORIGINAL_DIR ++ name) = original →
       env.imread (gtName (ORIGINAL_DIR ++ name)) = gtimg →
       256 ≤ original.rows → 256 ≤ original.cols →
       i < rands.length →
       (∀ j, j < i → attemptAccepted env original (rands.getD j (0, 0)) = false) →
       attemptAccepted env original (rands.getD i (0, 0)) = true →
       convert env name gs rands =
         { writes := acceptedWrites env name gs (cropImg original (rands.getD i (0, 0)).2)
             (gtProcess (cropImg gtimg (rands.getD i (0, 0)).2))
           outcome := .accepted }) ∧
    (∀ (h count : ℕ), h ≤ 256 → 100 * count = h * 256 → acceptCrop count h 256 = false) ∧
    (∀ count : ℕ, acceptCrop count 256 256 = decide (256 * 256 < 100 * count)) := by
  refine ⟨?_, ?_, ?_⟩
  · intro env name gs original gtimg rands i hname horig hgt hrows hcols hi hbefore hacc
    have hsize : ¬(original.rows < 256 ∨ original.cols < 256) := by omega
    simp only [convert, hname, Bool.false_eq_true, if_false, horig, hgt, hsize]
    exact cropLoop_first_accept env name gs original gtimg rands i hi hbefore hacc
  · intro h count hh he
    have hdvd : (25 : ℕ) ∣ h * 64 := ⟨count, by omega⟩
    have h25 : (25 : ℕ) ∣ h := Nat.Coprime.dvd_of_dvd_mul_right (by decide) hdvd
    obtain ⟨j, rfl⟩ := h25
    have hj : j < 11 := by omega
    have hc : count = 64 * j := by omega
    subst hc
    exact (by decide : ∀ jj, jj < 11 → acceptCrop (64 * jj) (25 * jj) 256 = false) j hj
  · intro count
    rcases Nat.lt_or_ge count 656 with hc | hc
    · have hcast : (count : ℚ) ≤ 655 := by exact_mod_cast (by omega : count ≤ 655)
      have hT : (655 : ℚ) < thresh 256 256 := by decide
      have hl : acceptCrop count 256 256 = false := by
        simp only [acceptCrop, decide_eq_false_iff_not]
        intro hlt
        exact absurd (lt_of_lt_of_le hT (le_of_lt hlt)) (not_lt.mpr hcast)
      have hr : decide (256 * 256 < 100 * count) = false := by
        simp only [decide_eq_false_iff_not]
        omega
      rw [hl, hr]
    · have hcast : (656 : ℚ) ≤ (count : ℚ) := by exact_mod_cast hc
      have hT : thresh 256 256 < (656 : ℚ) := by decide
      have hl : acceptCrop count 256 256 = true := by
        simp only [acceptCrop, decide_eq_true_eq]
        exact lt_of_lt_of_le hT hcast
      have hr : decide (256 * 256 < 100 * count) = true := by
        simp only [decide_eq_true_eq]
        omega
      rw [hl, hr]

/-- Witness for C7: the first attempt is accepted on a fully-edged
256 by 256 original; the boundary crop 100 by 256 with exactly 1%
edge pixels (count 256 = 25600 / 100) is rejected; and acceptance at
count 656 on the nominal crop matches the exact comparison. -/
theorem C7_first_accept_and_boundary_witness :
    (convert envAllEdges "doc1.png" true [(0, 0), (0, 0), (0, 0), (0, 0), (0, 0)] =
      { writes := acceptedWrites envAllEdges "doc1.png" true (cropImg imgSq 0)
          (gtProcess (cropImg imgSq 0))
        outcome := .accepted }) ∧
    acceptCrop 256 100 256 = false ∧
    acceptCrop 656 256 256 = decide (256 * 256 < 100 * 656) :=
  ⟨C7_first_accept_and_boundary.1 envAllEdges "doc1.png" true imgSq imgSq
      [(0, 0), (0, 0), (0, 0), (0, 0), (0, 0)] 0
      (by decide) rfl rfl (by decide) (by decide) (by decide)
      (fun j hj => absurd hj (Nat.not_lt_zero j)) (by decide),
   C7_first_accept_and_boundary.2.1 100 256 (by decide) (by decide),
   C7_first_accept_and_boundary.2.2 656⟩

/-- C10: every accepted patch emits exactly four files — original
patch, processed ground truth, recall weights, precision weights — in
the four `full/` subdirectories, all under the original image's
basename (lines 97-100 rebind `file` first and take every later
basename from it, so the ground-truth output loses its `_gt` suffix);
this is the 1:1 filename correspondence the splitter moves by. -/
theorem C10_four_artifacts_same_basename (env : CvEnv) (name : String) (gs : Bool)
    (rands : List (ℕ × ℕ))
    (h : (convert env name gs rands).outcome = .accepted) :
    (convert env name gs rands).writes.map Prod.fst =
      [⟨FULL_DIR ++ ORIGINAL_SUBDIR, name⟩, ⟨FULL_DIR ++ GT_SUBDIR, name⟩,
       ⟨FULL_DIR ++ RECALL_SUBDIR, name⟩, ⟨FULL_DIR ++ PRECISION_SUBDIR, name⟩] ∧
    ∀ p ∈ (convert env name gs rands).writes, p.1.base = name := by
  by_cases h1 : hasSubstr "gt".data name.data = true
  · simp [convert, h1] at h
  · have h1f : hasSubstr "gt".data name.data = false := by simpa using h1
    by_cases h2 : (env.imread (ORIGINAL_DIR ++ name)).rows < 256 ∨
        (env.imread (ORIGINAL_DIR ++ name)).cols < 256
    · simp [convert, h1f, h2] at h
    · simp only [convert, h1f, Bool.false_eq_true, if_false, h2] at h ⊢
      have hw := cropLoop_accepted_writes env name gs _ _ rands h
      refine ⟨hw, ?_⟩
      intro p hp
      have hmem := List.mem_map_of_mem Prod.fst hp
      rw [hw] at hmem
      simp only [List.mem_cons, List.not_mem_nil, or_false] at hmem
      rcases hmem with h3 | h3 | h3 | h3 <;> rw [h3]

/-- Witness for C10: a single accepted attempt on a concrete original
writes the four artifacts under the one basename. -/
theorem C10_four_artifacts_same_basename_witness :
    (convert envAllEdges "doc2.png" false [(0, 0)]).writes.map Prod.fst =
      [⟨FULL_DIR ++ ORIGINAL_SUBDIR, "doc2.png"⟩, ⟨FULL_DIR ++ GT_SUBDIR, "doc2.png"⟩,
       ⟨FULL_DIR ++ RECALL_SUBDIR, "doc2.png"⟩,
       ⟨FULL_DIR ++ PRECISION_SUBDIR, "doc2.png"⟩] ∧
    ∀ p ∈ (convert envAllEdges "doc2.png" false [(0, 0)]).writes, p.1.base = "doc2.png" :=
  C10_four_artifacts_same_basename envAllEdges "doc2.png" false [(0, 0)] (by decide)

end SyntheticDocuments
